import Mathlib

/-!
Verification development for the CorePoint board-analyzer core (src/app.py).

The embedding models the extraction-and-aggregation engine:
  - the module constants EXCLUDED_COLUMNS_FOR_AGE, REQUESTED_LANES,
    FOCUSED_LABELS, ALL_LABELS (app.py lines 13-32);
  - the regular expressions DATE_PAT and PRICE_PAT (lines 35-36) as explicit
    leftmost-match scanners over lists of characters;
  - parse_date (lines 38-44), including the exact digit patterns and
    whole-string check of the CPython strptime implementation for the three
    formats tried, and calendar validation as done by datetime.date;
  - extract_cards (lines 46-76) over an explicit document-tree type standing
    for the BeautifulSoup parse tree; the reference "today" (line 49, read
    from the clock once per extraction pass) is passed as an explicit
    parameter; the int(...) conversion on line 73, which raises ValueError
    when its argument is empty, is modelled by Except;
  - avg (lines 78-79) and build_report (lines 81-124) with exact rational
    arithmetic; round(x, 2) is round-half-to-even at two decimals, and
    statistics.mean is the exact arithmetic mean.

Text is modelled as List Char (ASCII model: the Python str.lower, str.strip
and the regex \s class are taken on their ASCII behaviour, which covers every
constant and marker the program matches on).
-/

namespace CorePoint

abbrev Str := List Char

/-- Python str.lower, per character (ASCII model). -/
def lowerStr (s : Str) : Str := s.map Char.toLower

/-- The regex class \s and the default str.strip set (ASCII model):
space, tab, newline, carriage return, vertical tab, form feed. -/
def isPySpace (c : Char) : Bool :=
  c == ' ' || c == '\t' || c == '\n' || c == '\r' || c == Char.ofNat 11 || c == Char.ofNat 12

/-- Numeric value of a decimal digit character. -/
def digitVal (c : Char) : Nat := c.toNat - 48

/-- Value of a nonempty string of decimal digits, as Python int() reads it. -/
def digitsToNat (s : Str) : Nat := s.foldl (fun a c => 10 * a + digitVal c) 0

/-- Does the needle occur at the head of the haystack (case sensitive)? -/
def leadMatch : Str → Str → Bool
  | [], _ => true
  | _ :: _, [] => false
  | a :: as, b :: bs => a == b && leadMatch as bs

/-- Python substring test (the in operator on str): the first list occurs
contiguously inside the second. The empty needle always matches. -/
def hasSubstr : Str → Str → Bool
  | n, [] => leadMatch n []
  | n, c :: t => leadMatch n (c :: t) || hasSubstr n t

/-- Case-insensitive substring test, as in lbl.lower() in text.lower(). -/
def substrCI (needle hay : Str) : Bool := hasSubstr (lowerStr needle) (lowerStr hay)

/-- Match a literal pattern case-insensitively at the head of the input and
return the remainder. The pattern is given in lowercase. -/
def dropLitCI : Str → Str → Option Str
  | [], s => some s
  | _ :: _, [] => none
  | p :: ps, c :: cs => if c.toLower == p then dropLitCI ps cs else none

/-! ## Rounding (Python round(x, 2) on exact rationals)

Python round uses round-half-to-even. roundHalfEven2 a b computes
round(a/b * 100) for b > 0 with ties to even, entirely in integer
arithmetic; rnd2Frac a b is round(a/b, 2) as a rational. -/

/-- Round (a * 100) / b to the nearest integer, ties to even (b positive). -/
def roundHalfEven2 (a b : Int) : Int :=
  let a100 := a * 100
  let n := Int.fdiv a100 b
  let r := a100 - n * b
  if 2 * r < b then n
  else if b < 2 * r then n + 1
  else if n % 2 = 0 then n else n + 1

/-- round(a/b, 2) as an exact rational (b positive). -/
def rnd2Frac (a b : Int) : Rat := Rat.divInt (roundHalfEven2 a b) 100

/-- avg (app.py lines 78-79): round(statistics.mean(xs), 2) if xs else 0.0,
with the mean taken exactly. -/
def avg (xs : List Int) : Rat :=
  if xs = [] then 0 else rnd2Frac xs.sum (xs.length : Int)

/-! ## DATE_PAT (app.py line 35)

DATE_PAT = Received[:\s]+(\d{1,2}/\d{1,2}/\d{2,4}), case-insensitive,
used with .search (leftmost match). The scanner below tries every start
position in order and at each position matches the literal marker, one or
more colon/whitespace characters, then the capture group. The quantifier
\d{1,2} is pinned by the following slash (two digits succeed only when a
slash follows; otherwise the single-digit fallback must be followed by a
slash), and \d{2,4} at the end of the pattern greedily takes up to four
digits. The returned value is the captured group. -/

/-- Match \d{1,2} followed by a literal slash; returns the digits and the
remainder after the slash. -/
def matchTwoDigitSlash : Str → Option (Str × Str)
  | a :: b :: c :: rest =>
    if a.isDigit then
      if b.isDigit then
        if c == '/' then some ([a, b], rest) else none
      else if b == '/' then some ([a], c :: rest) else none
    else none
  | [a, b] => if a.isDigit && b == '/' then some ([a], []) else none
  | _ => none

/-- Take up to n leading decimal digits. -/
def takeDigitsUpTo : Nat → Str → Str
  | 0, _ => []
  | _ + 1, [] => []
  | n + 1, c :: cs => if c.isDigit then c :: takeDigitsUpTo n cs else []

/-- Match DATE_PAT anchored at the current position; returns the captured
date token. -/
def matchDateAt (s : Str) : Option Str :=
  match dropLitCI "received".toList s with
  | none => none
  | some s1 =>
    let sep := s1.takeWhile (fun c => c == ':' || isPySpace c)
    if sep = [] then none
    else
      let s2 := s1.dropWhile (fun c => c == ':' || isPySpace c)
      match matchTwoDigitSlash s2 with
      | none => none
      | some (m1, s3) =>
        match matchTwoDigitSlash s3 with
        | none => none
        | some (d1, s4) =>
          let y := takeDigitsUpTo 4 s4
          if y.length < 2 then none
          else some (m1 ++ '/' :: d1 ++ '/' :: y)

/-- DATE_PAT.search: leftmost match, returning the captured group. -/
def datePatSearch : Str → Option Str
  | [] => matchDateAt []
  | c :: rest =>
    match matchDateAt (c :: rest) with
    | some g => some g
    | none => datePatSearch rest

/-! ## PRICE_PAT (app.py line 36)

PRICE_PAT = Quoted Price\s*[$:]*\s*([\d,]+), case-insensitive, used with
.search. The three starred classes are pairwise disjoint from each other
and from the capture class at their boundaries, so maximal munch is the
exact regex semantics. The capture group is one or more characters that
are decimal digits or commas, hence possibly containing no digit at all. -/

/-- Match PRICE_PAT anchored at the current position; returns the captured
group. -/
def matchPriceAt (s : Str) : Option Str :=
  match dropLitCI "quoted price".toList s with
  | none => none
  | some s1 =>
    let s2 := s1.dropWhile isPySpace
    let s3 := s2.dropWhile (fun c => c == '$' || c == ':')
    let s4 := s3.dropWhile isPySpace
    let g := s4.takeWhile (fun c => c.isDigit || c == ',')
    if g = [] then none else some g

/-- PRICE_PAT.search: leftmost match, returning the captured group. -/
def pricePatSearch : Str → Option Str
  | [] => matchPriceAt []
  | c :: rest =>
    match matchPriceAt (c :: rest) with
    | some g => some g
    | none => pricePatSearch rest

/-! ## parse_date (app.py lines 38-44)

datetime.strptime(s, fmt) compiles fmt to a regex using the CPython
_strptime character classes:
  %m  -> 1[0-2] | 0[1-9] | [1-9]
  %d  -> 3[01] | [12]\d | 0[1-9] | [1-9] | space[1-9]
  %y  -> \d\d          %Y -> \d\d\d\d
matches it at the start of the string (alternatives tried left to right
with backtracking), then raises ValueError unless the match consumed the
whole string, and finally builds datetime.date, which validates the
calendar day. A ValueError falls through to the next format. The functions
below return every alternative in source order and commit to the first one
whose continuation matches, which is exactly the backtracking order. -/

def firstSome {α β : Type} (f : α → Option β) : List α → Option β
  | [] => none
  | a :: as =>
    match f a with
    | some b => some b
    | none => firstSome f as

/-- The %m alternatives in CPython order, each with the remainder. -/
def monthAlts (s : Str) : List (Nat × Str) :=
  (match s with
   | '1' :: c :: rest =>
     if c == '0' || c == '1' || c == '2' then [(10 + digitVal c, rest)] else []
   | _ => []) ++
  (match s with
   | '0' :: c :: rest => if c.isDigit && c != '0' then [(digitVal c, rest)] else []
   | _ => []) ++
  (match s with
   | c :: rest => if c.isDigit && c != '0' then [(digitVal c, rest)] else []
   | _ => [])

/-- The %d alternatives in CPython order, each with the remainder. -/
def dayAlts (s : Str) : List (Nat × Str) :=
  (match s with
   | '3' :: c :: rest => if c == '0' || c == '1' then [(30 + digitVal c, rest)] else []
   | _ => []) ++
  (match s with
   | c1 :: c2 :: rest =>
     if (c1 == '1' || c1 == '2') && c2.isDigit then [(10 * digitVal c1 + digitVal c2, rest)] else []
   | _ => []) ++
  (match s with
   | '0' :: c :: rest => if c.isDigit && c != '0' then [(digitVal c, rest)] else []
   | _ => []) ++
  (match s with
   | c :: rest => if c.isDigit && c != '0' then [(digitVal c, rest)] else []
   | _ => []) ++
  (match s with
   | ' ' :: c :: rest => if c.isDigit && c != '0' then [(digitVal c, rest)] else []
   | _ => [])

/-- The %y pattern: exactly two digits. -/
def twoDigits : Str → Option (Nat × Str)
  | c1 :: c2 :: rest =>
    if c1.isDigit && c2.isDigit then some (10 * digitVal c1 + digitVal c2, rest) else none
  | _ => none

/-- The %Y pattern: exactly four digits. -/
def fourDigits : Str → Option (Nat × Str)
  | c1 :: c2 :: c3 :: c4 :: rest =>
    if c1.isDigit && c2.isDigit && c3.isDigit && c4.isDigit then
      some (1000 * digitVal c1 + 100 * digitVal c2 + 10 * digitVal c3 + digitVal c4, rest)
    else none
  | _ => none

/-- Regex match of %m/%d/ followed by the given year pattern, with the
CPython backtracking order; the remainder is unconstrained here (the
whole-string check happens afterwards, as in _strptime). -/
def matchMDY (yearM : Str → Option (Nat × Str)) (s : Str) : Option (Nat × Nat × Nat × Str) :=
  firstSome (fun mp =>
    match mp.2 with
    | '/' :: s2 =>
      firstSome (fun dp =>
        match dp.2 with
        | '/' :: s4 =>
          match yearM s4 with
          | some yp => some (mp.1, dp.1, yp.1, yp.2)
          | none => none
        | _ => none) (dayAlts s2)
    | _ => none) (monthAlts s)

/-- Regex match of %Y-%m-%d with the CPython backtracking order. -/
def matchISO (s : Str) : Option (Nat × Nat × Nat × Str) :=
  match fourDigits s with
  | none => none
  | some yp =>
    match yp.2 with
    | '-' :: s2 =>
      firstSome (fun mp =>
        match mp.2 with
        | '-' :: s4 => firstSome (fun dp => some (yp.1, mp.1, dp.1, dp.2)) (dayAlts s4)
        | _ => none) (monthAlts s2)
    | _ => none

def isLeapYear (y : Nat) : Bool := y % 4 == 0 && (y % 100 != 0 || y % 400 == 0)

def daysInMonth (y m : Nat) : Nat :=
  if m == 2 then (if isLeapYear y then 29 else 28)
  else if m == 4 || m == 6 || m == 9 || m == 11 then 30
  else 31

/-- A datetime.date value (proleptic Gregorian calendar). -/
structure PyDate where
  year : Nat
  month : Nat
  day : Nat
deriving DecidableEq, Repr

/-- datetime.date construction: validates the ranges MINYEAR..MAXYEAR,
1..12, 1..days-in-month; returns none where date() raises ValueError. -/
def mkValidDate (y m d : Nat) : Option PyDate :=
  if 1 ≤ y ∧ y ≤ 9999 ∧ 1 ≤ m ∧ m ≤ 12 ∧ 1 ≤ d ∧ d ≤ daysInMonth y m then
    some ⟨y, m, d⟩
  else none

/-- strptime with format %m/%d/%y and date construction. The two-digit year
is expanded with the POSIX pivot: 0..68 to 2000..2068, 69..99 to 1969..1999. -/
def strpMDY2 (s : Str) : Option PyDate :=
  match matchMDY twoDigits s with
  | some (m, d, y, rest) =>
    if rest = [] then mkValidDate (if y ≤ 68 then 2000 + y else 1900 + y) m d else none
  | none => none

/-- strptime with format %m/%d/%Y and date construction. -/
def strpMDY4 (s : Str) : Option PyDate :=
  match matchMDY fourDigits s with
  | some (m, d, y, rest) => if rest = [] then mkValidDate y m d else none
  | none => none

/-- strptime with format %Y-%m-%d and date construction. -/
def strpISO (s : Str) : Option PyDate :=
  match matchISO s with
  | some (y, m, d, rest) => if rest = [] then mkValidDate y m d else none
  | none => none

/-- parse_date (app.py lines 38-44): the three formats are tried in order,
the first success wins, and total failure returns none. -/
def parse_date (s : Str) : Option PyDate :=
  match strpMDY2 s with
  | some d => some d
  | none =>
    match strpMDY4 s with
    | some d => some d
    | none => strpISO s

/-! ## Day difference, as (today - d).days on datetime.date -/

def daysBeforeYear (y : Nat) : Nat :=
  365 * (y - 1) + (y - 1) / 4 - (y - 1) / 100 + (y - 1) / 400

def daysBeforeMonth (y m : Nat) : Nat :=
  (List.range (m - 1)).foldl (fun a i => a + daysInMonth y (i + 1)) 0

/-- date.toordinal: day count in the proleptic Gregorian calendar. -/
def toOrdinal (d : PyDate) : Nat :=
  daysBeforeYear d.year + daysBeforeMonth d.year d.month + d.day

/-- (a - b).days for two dates; may be negative. -/
def dateDiffDays (a b : PyDate) : Int := (toOrdinal a : Int) - (toOrdinal b : Int)

/-! ## The document tree (the BeautifulSoup parse result)

A node is an element with a tag, a list of class tokens and children, or a
bare text node. A document is the list of top-level nodes. An element
without a class attribute has the empty class list; the class_ callables in
app.py guard against None and so never match it. -/

mutual
inductive Node where
  | elem (tag : Str) (classes : List Str) (children : NodeList)
  | text (s : Str)
inductive NodeList where
  | nil
  | cons (head : Node) (tail : NodeList)
end

def NodeList.ofList : List Node → NodeList
  | [] => .nil
  | n :: rest => .cons n (NodeList.ofList rest)

mutual
/-- All proper descendants of a node, in document (preorder) order. -/
def descOf : Node → List Node
  | .text _ => []
  | .elem _ _ ch => descL ch
/-- Each node of the list followed by its descendants, in document order. -/
def descL : NodeList → List Node
  | .nil => []
  | .cons n rest => n :: descOf n ++ descL rest
end

mutual
/-- The text-node strings under a node, in document order. -/
def textPieces : Node → List Str
  | .text s => [s]
  | .elem _ _ ch => textPiecesL ch
def textPiecesL : NodeList → List Str
  | .nil => []
  | .cons n rest => textPieces n ++ textPiecesL rest
end

/-- Python str.strip() (ASCII whitespace model). -/
def stripStr (s : Str) : Str :=
  ((s.dropWhile isPySpace).reverse.dropWhile isPySpace).reverse

def joinSpace : List Str → Str
  | [] => []
  | [x] => x
  | x :: y :: rest => x ++ ' ' :: joinSpace (y :: rest)

/-- get_text(" ", strip=True): each descendant string stripped, empty
results dropped, the rest joined with a single space. -/
def get_text (n : Node) : Str :=
  joinSpace (((textPieces n).map stripStr).filter (fun p => p != []))

/-- Does any class token start with the given literal? This is the shape of
the class_ lambdas in app.py: c and c.startswith(...). -/
def classAnyStarts (pre : Str) (classes : List Str) : Bool :=
  classes.any (fun c => leadMatch pre c)

/-- A div element whose class attribute satisfies the given test. -/
def isDivClass (p : List Str → Bool) : Node → Bool
  | .elem tag cls _ => tag == "div".toList && p cls
  | .text _ => false

def isOuterWrapperDiv : Node → Bool := isDivClass (classAnyStarts "_outerWrapper_".toList)

def isHeaderNameDiv : Node → Bool := isDivClass (classAnyStarts "_headerName_".toList)

def isCardClassDiv : Node → Bool := isDivClass (fun cls => cls.contains "card".toList)

def isAnyDiv : Node → Bool := isDivClass (fun _ => true)

/-- soup.find_all over the whole document: every node of the document in
document order that satisfies the test. -/
def findAllTop (p : Node → Bool) (doc : NodeList) : List Node := (descL doc).filter p

/-- element.find_all / select: the descendants of the element, filtered. -/
def findInDesc (p : Node → Bool) (n : Node) : List Node := (descOf n).filter p

/-- outer.find("div", class_=headerName...): first matching descendant. -/
def findHeader (outer : Node) : Option Node := (findInDesc isHeaderNameDiv outer).head?

/-- outer.select("div.card"): descendant divs with class token card. -/
def selectDivCard (outer : Node) : List Node := findInDesc isCardClassDiv outer

/-- outer.find_all("div", recursive=True): every descendant div. -/
def allDivDescendants (outer : Node) : List Node := findInDesc isAnyDiv outer

/-- app.py line 58: outer.select("div.card") or outer.find_all("div",
recursive=True) - the fallback fires exactly when the select is empty. -/
def cardCandidates (outer : Node) : List Node :=
  match selectDivCard outer with
  | [] => allDivDescendants outer
  | c :: rest => c :: rest

/-! ## extract_cards (app.py lines 46-76) -/

/-- One extracted card record: {column, text, date, age, price}. -/
structure Card where
  column : Str
  text : Str
  date : PyDate
  age : Int
  price : Option Nat
deriving DecidableEq, Repr

instance {ε α : Type} [DecidableEq ε] [DecidableEq α] : DecidableEq (Except ε α) := fun a b =>
  match a, b with
  | .error x, .error y =>
    if h : x = y then .isTrue (congrArg Except.error h)
    else .isFalse (fun k => h (Except.error.inj k))
  | .error _, .ok _ => .isFalse (fun k => Except.noConfusion k)
  | .ok _, .error _ => .isFalse (fun k => Except.noConfusion k)
  | .ok x, .ok y =>
    if h : x = y then .isTrue (congrArg Except.ok h)
    else .isFalse (fun k => h (Except.ok.inj k))

/-- app.py lines 72-73: the price of a card text. When PRICE_PAT matches a
group of commas only, int("") raises ValueError; that is the error case. -/
def card_price (text : Str) : Except Unit (Option Nat) :=
  match pricePatSearch text with
  | none => Except.ok none
  | some g =>
    let ds := g.filter (fun c => c != ',')
    if ds = [] then Except.error () else Except.ok (some (digitsToNat ds))

/-- app.py lines 60-75, one candidate: empty text, a missing date match or
an unparseable date token skip the candidate (ok none); a successful parse
builds the record; a ValueError from int() aborts (error). -/
def processCard (today : PyDate) (column : Str) (card : Node) : Except Unit (Option Card) :=
  let text := get_text card
  if text = [] then Except.ok none
  else
    match datePatSearch text with
    | none => Except.ok none
    | some tok =>
      match parse_date tok with
      | none => Except.ok none
      | some d =>
        match card_price text with
        | Except.error e => Except.error e
        | Except.ok price => Except.ok (some ⟨column, text, d, dateDiffDays today d, price⟩)

/-- The card loop of one column, in candidate order. -/
def processCards (today : PyDate) (column : Str) : List Node → Except Unit (List Card)
  | [] => Except.ok []
  | c :: rest =>
    match processCard today column c with
    | Except.error e => Except.error e
    | Except.ok none => processCards today column rest
    | Except.ok (some card) => (processCards today column rest).map (card :: ·)

/-- One outer wrapper: a wrapper without a header is skipped silently. -/
def processOuter (today : PyDate) (outer : Node) : Except Unit (List Card) :=
  match findHeader outer with
  | none => Except.ok []
  | some header => processCards today (get_text header) (cardCandidates outer)

def extractOuters (today : PyDate) : List Node → Except Unit (List Card)
  | [] => Except.ok []
  | o :: rest =>
    match processOuter today o with
    | Except.error e => Except.error e
    | Except.ok cs => (extractOuters today rest).map (cs ++ ·)

/-- extract_cards (app.py lines 46-76). The reference date (line 49, taken
from the clock once per pass) is the explicit today parameter. -/
def extract_cards (doc : NodeList) (today : PyDate) : Except Unit (List Card) :=
  extractOuters today (findAllTop isOuterWrapperDiv doc)

/-! ## Configuration constants (app.py lines 13-32) -/

def EXCLUDED_COLUMNS_FOR_AGE : List Str :=
  ["Completed".toList, "Canceled".toList, "New Parts Request".toList]

def REQUESTED_LANES : List Str :=
  ["Receipt Confirmed <7 days".toList, "Aging >7 Days".toList, "Stale >14 Days".toList,
   "Assigned to Department".toList, "Parts Ordered".toList, "Arrived/In-Hand".toList,
   "Contacted".toList, "Customer Unreachable".toList, "Scheduled".toList]

def FOCUSED_LABELS : List Str :=
  ["Demand Repair".toList, "Install".toList, "Dispatch".toList,
   "NOT COOLING/HEATING".toList, "Warranty".toList, "Comfort Shield Warranty".toList]

def ALL_LABELS : List Str :=
  ["Backordered".toList, "Warranty".toList, "Escalation".toList, "Prepaid Service".toList,
   "COSTCO ESCALATION".toList, "Demand Repair".toList, "1st Year Warranty".toList,
   "Install".toList, "Comfort Shield Warranty".toList, "Recall".toList,
   "Schedule Return Visit".toList, "Electrical".toList, "Duct Cleaning".toList,
   "Senior Tech Callback".toList, "Commercial".toList, "Possible Payment Issue".toList,
   "Replacement Opp".toList, "Manager Visit".toList, "Damage Claim".toList,
   "NOT COOLING/HEATING".toList, "Multiple Systems".toList, "Missing Quote".toList,
   "READY TO SCHEDULE".toList, "Missing Parts".toList, "URGENT".toList, "Dispatch".toList,
   "ISR - Service".toList, "Aging Card".toList, "In Service Recovery - Stale".toList,
   "Call Customer".toList, "Check Warranty".toList, "Plumbing".toList,
   "Truck Stock".toList, "Multiple Parts Request".toList]

/-! ## build_report (app.py lines 81-124)

The Excel serialization (lines 126-133) is the external report sink; the
value modelled here is the four row tables handed to it. -/

structure ScopeRow where
  scope : Str
  count : Nat
  avgAge : Rat
deriving DecidableEq, Repr

structure LaneRow where
  lane : Str
  count : Nat
  avgAge : Rat
deriving DecidableEq, Repr

structure LabelRow where
  label : Str
  count : Nat
  avgAge : Rat
deriving DecidableEq, Repr

structure QuotedStats where
  totalValueCount : Nat
  totalValue : Nat
  averageValue : Rat
  totalWonCount : Nat
  totalWon : Nat
  averageWon : Rat
  totalLostCount : Nat
  totalLost : Nat
  averageLost : Rat
deriving DecidableEq, Repr

structure Report where
  scope : List ScopeRow
  lanes : List LaneRow
  quoted : QuotedStats
  allLabels : List LabelRow
deriving DecidableEq, Repr

/-- app.py line 82: the excluded-filtered card population. -/
def activeOf (cards : List Card) : List Card :=
  cards.filter (fun c => !(EXCLUDED_COLUMNS_FOR_AGE.contains c.column))

/-- build_report (app.py lines 81-124). -/
def build_report (cards : List Card) : Report :=
  let active := activeOf cards
  let scope_rows : List ScopeRow :=
    ⟨"All cards (excluding Completed/Canceled)".toList, active.length,
      avg (active.map Card.age)⟩ ::
    FOCUSED_LABELS.map (fun lbl =>
      let ages := (active.filter (fun c => substrCI lbl c.text)).map Card.age
      ⟨lbl, ages.length, if ages = [] then 0 else avg ages⟩)
  let lane_rows : List LaneRow :=
    REQUESTED_LANES.filterMap (fun lane =>
      let ages := (cards.filter (fun c => c.column == lane)).map Card.age
      if ages = [] then none else some ⟨lane, ages.length, avg ages⟩)
  let active_prices := active.filterMap Card.price
  let completed_prices :=
    (cards.filter (fun c => c.column == "Completed".toList)).filterMap Card.price
  let canceled_prices :=
    (cards.filter (fun c => c.column == "Canceled".toList)).filterMap Card.price
  let quoted_stats : QuotedStats :=
    ⟨active_prices.length,
     if active_prices = [] then 0 else active_prices.sum,
     if active_prices = [] then 0 else avg (active_prices.map Int.ofNat),
     completed_prices.length,
     if completed_prices = [] then 0 else completed_prices.sum,
     if completed_prices = [] then 0 else avg (completed_prices.map Int.ofNat),
     canceled_prices.length,
     if canceled_prices = [] then 0 else canceled_prices.sum,
     if canceled_prices = [] then 0 else avg (canceled_prices.map Int.ofNat)⟩
  let all_label_rows : List LabelRow :=
    if ALL_LABELS = [] then []
    else ALL_LABELS.map (fun lbl =>
      let ages := (active.filter (fun c => substrCI lbl c.text)).map Card.age
      ⟨lbl, ages.length, if ages = [] then 0 else avg ages⟩)
  ⟨scope_rows, lane_rows, quoted_stats, all_label_rows⟩

/-! ## Spec-side definitions and concrete fixtures used by the claims -/

/-- The filtered population exactly as the spec words it: cards whose column
is not in the excluded set of the three names. -/
def c1ActiveSpec (cards : List Card) : List Card :=
  cards.filter (fun c =>
    !(c.column == "Completed".toList || c.column == "Canceled".toList ||
      c.column == "New Parts Request".toList))

def c1Demo : List Card := [⟨"Scheduled".toList, "x".toList, ⟨2023, 1, 2⟩, 10, none⟩]

def c2Header : Node :=
  Node.elem "div".toList ["_headerName_b".toList] (NodeList.ofList [Node.text "Scheduled".toList])

def c2GoodCardNode : Node :=
  Node.elem "div".toList ["card".toList] (NodeList.ofList [Node.text "Received: 1/3/23".toList])

/-- A card whose PRICE_PAT group is a bare comma: its date parses, but
int on the comma-stripped group is int(""). -/
def c2BadCardNode : Node :=
  Node.elem "div".toList ["card".toList]
    (NodeList.ofList [Node.text "Received: 1/2/23 Quoted Price ,".toList])

def c2Doc : NodeList :=
  NodeList.ofList [Node.elem "div".toList ["_outerWrapper_b".toList]
    (NodeList.ofList [c2Header, c2GoodCardNode, c2BadCardNode])]

def c2DocGoodOnly : NodeList :=
  NodeList.ofList [Node.elem "div".toList ["_outerWrapper_b".toList]
    (NodeList.ofList [c2Header, c2GoodCardNode])]

/-- A document whose single card carries its date in ISO year-month-day form. -/
def c3Doc : NodeList :=
  NodeList.ofList [Node.elem "div".toList ["_outerWrapper_c".toList] (NodeList.ofList [
    Node.elem "div".toList ["_headerName_c".toList]
      (NodeList.ofList [Node.text "Scheduled".toList]),
    Node.elem "div".toList ["card".toList]
      (NodeList.ofList [Node.text "Received: 2023-01-05".toList])])]

def c4Doc : NodeList :=
  NodeList.ofList [Node.elem "div".toList ["_outerWrapper_e".toList] (NodeList.ofList [
    Node.elem "div".toList ["_headerName_e".toList]
      (NodeList.ofList [Node.text "Contacted".toList]),
    Node.elem "div".toList ["card".toList]
      (NodeList.ofList [Node.text "Received: 1/2/23 Quoted Price $9".toList])])]

def c5Demo : List Card := [⟨"Scheduled".toList, "y".toList, ⟨2023, 1, 2⟩, 10, none⟩]

def c6Demo : List Card :=
  [⟨"Assigned to Department".toList, "t".toList, ⟨2023, 1, 2⟩, 10, some 5⟩]

def c7Demo : List Card :=
  [⟨"Scheduled".toList, "a".toList, ⟨2023, 1, 2⟩, 10, some 3⟩,
   ⟨"Completed".toList, "b".toList, ⟨2023, 1, 3⟩, 9, some 4⟩]

def c7DemoCard : Card := ⟨"Scheduled".toList, "a".toList, ⟨2023, 1, 2⟩, 10, some 3⟩

/-- The three price populations of app.py lines 104-106, as card sets. -/
def activePopulation (cards : List Card) : List Card :=
  (activeOf cards).filter (fun c => c.price.isSome)

def wonPopulation (cards : List Card) : List Card :=
  (cards.filter (fun c => c.column == "Completed".toList)).filter (fun c => c.price.isSome)

def lostPopulation (cards : List Card) : List Card :=
  (cards.filter (fun c => c.column == "Canceled".toList)).filter (fun c => c.price.isSome)

/-- A column wrapper with no div of class card: a header whose own text
holds a date, and one dated card nested inside one extra plain div. -/
def c9Outer : Node :=
  Node.elem "div".toList ["_outerWrapper_d".toList] (NodeList.ofList [
    Node.elem "div".toList ["_headerName_d".toList]
      (NodeList.ofList [Node.text "Lane1 Received: 1/2/23".toList]),
    Node.elem "div".toList [] (NodeList.ofList [
      Node.elem "div".toList [] (NodeList.ofList [Node.text "Received: 1/3/23".toList])])])

def c9Doc : NodeList := NodeList.ofList [c9Outer]

/-! ## Helper lemmas -/

/-- Every token captured by DATE_PAT contains a slash: the capture group has
the shape digits, slash, digits, slash, digits. -/
theorem matchDateAt_slash (s g : Str) (h : matchDateAt s = some g) : '/' ∈ g := by
  unfold matchDateAt at h
  split at h
  · exact Option.noConfusion h
  · dsimp only at h
    split at h
    · exact Option.noConfusion h
    · split at h
      · exact Option.noConfusion h
      · split at h
        · exact Option.noConfusion h
        · split at h
          · exact Option.noConfusion h
          · have hg := Option.some.inj h
            subst hg
            exact List.mem_append.mpr (Or.inr (List.mem_cons_self _ _))

theorem datePatSearch_slash : ∀ s g : Str, datePatSearch s = some g → '/' ∈ g := by
  intro s
  induction s with
  | nil =>
    intro g h
    exact matchDateAt_slash [] g h
  | cons c t ih =>
    intro g h
    unfold datePatSearch at h
    split at h
    · rename_i g0 hm
      have hg := Option.some.inj h
      subst hg
      exact matchDateAt_slash _ _ hm
    · exact ih g h

theorem extractOuters_headerless (today : PyDate) :
    ∀ l : List Node, (∀ n, n ∈ l → findHeader n = none) →
      extractOuters today l = Except.ok [] := by
  intro l
  induction l with
  | nil => intro _; rfl
  | cons o t ih =>
    intro hh
    have ho : findHeader o = none := hh o (List.mem_cons_self o t)
    have ht : extractOuters today t = Except.ok [] :=
      ih (fun n hn => hh n (List.mem_cons_of_mem o hn))
    simp [extractOuters, processOuter, ho, ht, Except.map]

/-! ## Claims -/

/-- C2: the spec says extraction never fails on a whole document because of
one malformed card. The code does fail: a card whose PRICE_PAT group
consists of commas only makes int("") raise ValueError on app.py line 73,
aborting the entire extraction. The same document without the malformed
card extracts normally, so skipping is not the implemented recovery. -/
theorem c2_price_crash :
    extract_cards c2Doc ⟨2023, 1, 12⟩ = Except.error () ∧
    card_price "Received: 1/2/23 Quoted Price ,".toList = Except.error () ∧
    extract_cards c2DocGoodOnly ⟨2023, 1, 12⟩ =
      Except.ok [⟨"Scheduled".toList, "Received: 1/3/23".toList, ⟨2023, 1, 3⟩, 9, none⟩] := by
  refine ⟨by decide, by decide, by decide⟩

/-- C3 counterexample: a document whose single card holds its date in ISO
year-month-day form yields no Card at all (the claim says such a card
yields a parsed date), even though parse_date applied directly to the ISO
token succeeds. -/
theorem c3_counterexample :
    extract_cards c3Doc ⟨2023, 1, 12⟩ = Except.ok [] ∧
    parse_date "2023-01-05".toList = some ⟨2023, 1, 5⟩ := by
  refine ⟨by decide, by decide⟩

/-- C3 amended: parse_date tries the three formats in order with first
success winning and returns none when no format matches; but the Received
marker pattern captures only slash-separated tokens (every captured group
contains a slash), so a card whose date token is in ISO year-month-day form
is never captured and yields no parsed date - the card is skipped. -/
theorem c3_date_formats :
    (∀ s : Str, (strpMDY2 s).isSome = true → parse_date s = strpMDY2 s) ∧
    (∀ s : Str, strpMDY2 s = none → (strpMDY4 s).isSome = true → parse_date s = strpMDY4 s) ∧
    (∀ s : Str, strpMDY2 s = none → strpMDY4 s = none → parse_date s = strpISO s) ∧
    (∀ s g : Str, datePatSearch s = some g → '/' ∈ g) ∧
    datePatSearch "Received: 2023-01-05".toList = none := by
  refine ⟨?_, ?_, ?_, datePatSearch_slash, by decide⟩
  · intro s h
    cases hh : strpMDY2 s with
    | none => rw [hh] at h; simp at h
    | some d => simp [parse_date, hh]
  · intro s h1 h2
    cases hh : strpMDY4 s with
    | none => rw [hh] at h2; simp at h2
    | some d => simp [parse_date, h1, hh]
  · intro s h1 h2
    simp [parse_date, h1, h2]

/-- C3 witness: the first format applies when it matches, and a captured
token indeed contains a slash. -/
theorem c3_witness :
    parse_date "1/2/23".toList = strpMDY2 "1/2/23".toList ∧ '/' ∈ "1/2/23".toList :=
  ⟨c3_date_formats.1 "1/2/23".toList (by decide),
   c3_date_formats.2.2.2.1 "Received: 1/2/23".toList "1/2/23".toList (by decide)⟩

/-- C4: extraction plus aggregation on equal document bytes with equal
reference dates (the single now of a pass, an explicit input here) yields
identical report tables - the core is a pure function of those inputs. -/
theorem c4_deterministic (doc1 doc2 : NodeList) (t1 t2 : PyDate)
    (hdoc : doc1 = doc2) (ht : t1 = t2) :
    (extract_cards doc1 t1).map build_report = (extract_cards doc2 t2).map build_report := by
  subst hdoc
  subst ht
  rfl

/-- C4 witness: the two runs of a concrete pass agree. -/
theorem c4_witness :
    (extract_cards c4Doc ⟨2023, 1, 12⟩).map build_report =
      (extract_cards c4Doc ⟨2023, 1, 12⟩).map build_report :=
  c4_deterministic c4Doc c4Doc ⟨2023, 1, 12⟩ ⟨2023, 1, 12⟩ rfl rfl

/-- C8: a document with no parseable column structure (every outer wrapper
lacks a header; in particular the empty document) extracts to the empty
Card sequence with no error, and aggregation of the empty sequence gives
report tables whose counts, sums and averages are all zero. -/
theorem c8_empty_input (doc : NodeList) (today : PyDate)
    (h : ∀ n, n ∈ findAllTop isOuterWrapperDiv doc → findHeader n = none) :
    extract_cards doc today = Except.ok [] ∧
    (∀ r, r ∈ (build_report []).scope → r.count = 0 ∧ r.avgAge = 0) ∧
    (build_report []).lanes = [] ∧
    (build_report []).quoted = ⟨0, 0, 0, 0, 0, 0, 0, 0, 0⟩ ∧
    (∀ r, r ∈ (build_report []).allLabels → r.count = 0 ∧ r.avgAge = 0) := by
  refine ⟨extractOuters_headerless today _ h, by decide, by decide, by decide, by decide⟩

/-- C8 witness: the empty document at a concrete reference date. -/
theorem c8_witness :
    extract_cards NodeList.nil ⟨2023, 1, 12⟩ = Except.ok [] :=
  (c8_empty_input NodeList.nil ⟨2023, 1, 12⟩
    (by intro n hn; exact absurd hn (List.not_mem_nil n))).1

/-- C9: when a column wrapper has no descendant div of class card, the
fallback takes every descendant div as a card candidate - the header and
each nesting wrapper included. Concretely, a dated card nested in one extra
plain div is emitted twice with the same text, and the header, whose own
text holds a parseable Received date, is emitted as a Card of its column
(the column name being that same header text). -/
theorem c9_fallback_scan :
    (∀ outer : Node, selectDivCard outer = [] →
      cardCandidates outer = allDivDescendants outer) ∧
    extract_cards c9Doc ⟨2023, 1, 12⟩ = Except.ok
      [⟨"Lane1 Received: 1/2/23".toList, "Lane1 Received: 1/2/23".toList, ⟨2023, 1, 2⟩, 10, none⟩,
       ⟨"Lane1 Received: 1/2/23".toList, "Received: 1/3/23".toList, ⟨2023, 1, 3⟩, 9, none⟩,
       ⟨"Lane1 Received: 1/2/23".toList, "Received: 1/3/23".toList, ⟨2023, 1, 3⟩, 9, none⟩] := by
  constructor
  · intro outer h
    unfold cardCandidates
    rw [h]
  · decide

/-- C9 witness: the concrete wrapper has no div.card, so its candidate list
is exactly its div descendants. -/
theorem c9_witness : cardCandidates c9Outer = allDivDescendants c9Outer :=
  c9_fallback_scan.1 c9Outer rfl

theorem activeOf_eq_spec (cards : List Card) : activeOf cards = c1ActiveSpec cards := by
  unfold activeOf c1ActiveSpec EXCLUDED_COLUMNS_FOR_AGE
  apply List.filter_congr
  intro c _
  simp only [List.contains, List.elem]
  cases c.column == "Completed".toList <;>
    cases c.column == "Canceled".toList <;>
      cases c.column == "New Parts Request".toList <;> rfl

/-- C1: Scope row 0 counts the cards whose column is outside the excluded
set of the three names, and its average-age field is the arithmetic mean of
their ages rounded to two decimals, or 0 when that population is empty. -/
theorem c1_scope_row0 (cards : List Card) :
    (build_report cards).scope.head? =
      some ⟨"All cards (excluding Completed/Canceled)".toList, (c1ActiveSpec cards).length,
        avg ((c1ActiveSpec cards).map Card.age)⟩ ∧
    ((c1ActiveSpec cards).map Card.age ≠ [] →
      avg ((c1ActiveSpec cards).map Card.age) =
        rnd2Frac ((c1ActiveSpec cards).map Card.age).sum
          (((c1ActiveSpec cards).map Card.age).length : Int)) ∧
    ((c1ActiveSpec cards).map Card.age = [] →
      avg ((c1ActiveSpec cards).map Card.age) = 0) := by
  refine ⟨?_, fun h => by rw [avg, if_neg h], fun h => by rw [avg, if_pos h]⟩
  have h0 : (build_report cards).scope.head? =
      some ⟨"All cards (excluding Completed/Canceled)".toList, (activeOf cards).length,
        avg ((activeOf cards).map Card.age)⟩ := rfl
  rw [h0, activeOf_eq_spec]

/-- C1 witness: a one-card population, with the mean-of-ages form. -/
theorem c1_witness :
    avg ((c1ActiveSpec c1Demo).map Card.age) =
      rnd2Frac ((c1ActiveSpec c1Demo).map Card.age).sum
        (((c1ActiveSpec c1Demo).map Card.age).length : Int) :=
  (c1_scope_row0 c1Demo).2.1 (by decide)

/-- C5: a configured lane name that is the exact column of no card yields
no Lane row at all, while the all-labels table always has exactly one row
per configured label and the Scope table always has one row per focused
label plus the leading all-cards row - zero-match labels are never omitted. -/
theorem c5_zero_row_asymmetry (cards : List Card) :
    (∀ lane, lane ∈ REQUESTED_LANES → (∀ c, c ∈ cards → c.column ≠ lane) →
      ∀ r, r ∈ (build_report cards).lanes → r.lane ≠ lane) ∧
    (build_report cards).allLabels.length = ALL_LABELS.length ∧
    (build_report cards).scope.length = FOCUSED_LABELS.length + 1 ∧
    (∀ lbl, lbl ∈ ALL_LABELS → ∃ r, r ∈ (build_report cards).allLabels ∧ r.label = lbl) ∧
    (∀ lbl, lbl ∈ FOCUSED_LABELS → ∃ r, r ∈ (build_report cards).scope ∧ r.scope = lbl) := by
  have hlanes : (build_report cards).lanes = REQUESTED_LANES.filterMap (fun lane =>
      let ages := (cards.filter (fun c => c.column == lane)).map Card.age
      if ages = [] then none else some ⟨lane, ages.length, avg ages⟩) := rfl
  have hlbls : (build_report cards).allLabels = ALL_LABELS.map (fun lbl =>
      let ages := ((activeOf cards).filter (fun c => substrCI lbl c.text)).map Card.age
      (⟨lbl, ages.length, if ages = [] then 0 else avg ages⟩ : LabelRow)) := by
    have he : (build_report cards).allLabels =
        (if ALL_LABELS = [] then [] else ALL_LABELS.map (fun lbl =>
          let ages := ((activeOf cards).filter (fun c => substrCI lbl c.text)).map Card.age
          (⟨lbl, ages.length, if ages = [] then 0 else avg ages⟩ : LabelRow))) := rfl
    rw [he, if_neg (by decide)]
  have hscope : (build_report cards).scope =
      (⟨"All cards (excluding Completed/Canceled)".toList, (activeOf cards).length,
         avg ((activeOf cards).map Card.age)⟩ : ScopeRow) ::
      FOCUSED_LABELS.map (fun lbl =>
        let ages := ((activeOf cards).filter (fun c => substrCI lbl c.text)).map Card.age
        (⟨lbl, ages.length, if ages = [] then 0 else avg ages⟩ : ScopeRow)) := rfl
  refine ⟨?_, ?_, ?_, ?_, ?_⟩
  · intro lane hlane hno r hr heq
    rw [hlanes] at hr
    rcases List.mem_filterMap.mp hr with ⟨a, _, hfa⟩
    dsimp only at hfa
    split at hfa
    · exact Option.noConfusion hfa
    · rename_i hne
      have hr2 := Option.some.inj hfa
      subst hr2
      subst heq
      have hfil : (cards.filter (fun c => c.column == a)) ≠ [] := by
        intro hnil
        rw [hnil] at hne
        exact hne rfl
      rcases List.exists_mem_of_ne_nil _ hfil with ⟨c, hc⟩
      rcases List.mem_filter.mp hc with ⟨hcc, hcol⟩
      exact hno c hcc (eq_of_beq hcol)
  · rw [hlbls, List.length_map]
  · rw [hscope]
    simp [List.length_map]
  · intro lbl h
    rw [hlbls]
    refine ⟨_, List.mem_map_of_mem _ h, ?_⟩
    rfl
  · intro lbl h
    rw [hscope]
    refine ⟨_, List.mem_cons_of_mem _ (List.mem_map_of_mem _ h), ?_⟩
    rfl

/-- C5 witness: with one Scheduled card, the lane Contacted matches no card
and its name heads no lane row; the label tables keep their full lengths. -/
theorem c5_witness :
    (build_report c5Demo).allLabels.length = ALL_LABELS.length ∧
    ((⟨"Scheduled".toList, 1, 10⟩ : LaneRow).lane ≠ "Contacted".toList) :=
  ⟨(c5_zero_row_asymmetry c5Demo).2.1,
   (c5_zero_row_asymmetry c5Demo).1 "Contacted".toList (by decide) (by decide)
     ⟨"Scheduled".toList, 1, 10⟩ (by decide)⟩

theorem sum_map_ofNat (P : List Nat) : (P.map Int.ofNat).sum = ((P.sum : Nat) : Int) := by
  induction P with
  | nil => rfl
  | cons a t ih => simp [List.map_cons, List.sum_cons, ih]

theorem pop_pair (P : List Nat) :
    (0 < P.length →
      (if P = [] then (0 : Rat) else avg (P.map Int.ofNat)) =
        rnd2Frac (Int.ofNat (if P = [] then (0 : Nat) else P.sum)) (P.length : Int)) ∧
    (P.length = 0 →
      (if P = [] then (0 : Nat) else P.sum) = 0 ∧
      (if P = [] then (0 : Rat) else avg (P.map Int.ofNat)) = 0) := by
  constructor
  · intro h
    have hP : P ≠ [] := by
      intro hh
      subst hh
      simp at h
    rw [if_neg hP, if_neg hP]
    unfold avg
    rw [if_neg (fun hh => hP (List.map_eq_nil_iff.mp hh)), List.length_map]
    congr 1
    exact sum_map_ofNat P
  · intro h
    have hP : P = [] := List.length_eq_zero.mp h
    subst hP
    exact ⟨rfl, rfl⟩

/-- C6: in the price-summary row, each of the three populations has its
mean equal to its sum over its count rounded to two decimals whenever the
count is positive, and count, sum and mean all exactly zero when the count
is zero. -/
theorem c6_price_consistency (cards : List Card) :
    (0 < (build_report cards).quoted.totalValueCount →
      (build_report cards).quoted.averageValue =
        rnd2Frac ((build_report cards).quoted.totalValue : Int)
          ((build_report cards).quoted.totalValueCount : Int)) ∧
    ((build_report cards).quoted.totalValueCount = 0 →
      (build_report cards).quoted.totalValue = 0 ∧
      (build_report cards).quoted.averageValue = 0) ∧
    (0 < (build_report cards).quoted.totalWonCount →
      (build_report cards).quoted.averageWon =
        rnd2Frac ((build_report cards).quoted.totalWon : Int)
          ((build_report cards).quoted.totalWonCount : Int)) ∧
    ((build_report cards).quoted.totalWonCount = 0 →
      (build_report cards).quoted.totalWon = 0 ∧
      (build_report cards).quoted.averageWon = 0) ∧
    (0 < (build_report cards).quoted.totalLostCount →
      (build_report cards).quoted.averageLost =
        rnd2Frac ((build_report cards).quoted.totalLost : Int)
          ((build_report cards).quoted.totalLostCount : Int)) ∧
    ((build_report cards).quoted.totalLostCount = 0 →
      (build_report cards).quoted.totalLost = 0 ∧
      (build_report cards).quoted.averageLost = 0) :=
  by
  have e : (build_report cards).quoted =
      ⟨((activeOf cards).filterMap Card.price).length,
       if (activeOf cards).filterMap Card.price = [] then 0
         else ((activeOf cards).filterMap Card.price).sum,
       if (activeOf cards).filterMap Card.price = [] then 0
         else avg (((activeOf cards).filterMap Card.price).map Int.ofNat),
       ((cards.filter (fun c => c.column == "Completed".toList)).filterMap Card.price).length,
       if (cards.filter (fun c => c.column == "Completed".toList)).filterMap Card.price = [] then 0
         else ((cards.filter (fun c => c.column == "Completed".toList)).filterMap Card.price).sum,
       if (cards.filter (fun c => c.column == "Completed".toList)).filterMap Card.price = [] then 0
         else avg (((cards.filter (fun c => c.column == "Completed".toList)).filterMap
           Card.price).map Int.ofNat),
       ((cards.filter (fun c => c.column == "Canceled".toList)).filterMap Card.price).length,
       if (cards.filter (fun c => c.column == "Canceled".toList)).filterMap Card.price = [] then 0
         else ((cards.filter (fun c => c.column == "Canceled".toList)).filterMap Card.price).sum,
       if (cards.filter (fun c => c.column == "Canceled".toList)).filterMap Card.price = [] then 0
         else avg (((cards.filter (fun c => c.column == "Canceled".toList)).filterMap
           Card.price).map Int.ofNat)⟩ := rfl
  rw [e]
  refine ⟨?_, ?_, ?_, ?_, ?_, ?_⟩
  · exact (pop_pair ((activeOf cards).filterMap Card.price)).1
  · exact (pop_pair ((activeOf cards).filterMap Card.price)).2
  · exact (pop_pair ((cards.filter (fun c => c.column == "Completed".toList)).filterMap
      Card.price)).1
  · exact (pop_pair ((cards.filter (fun c => c.column == "Completed".toList)).filterMap
      Card.price)).2
  · exact (pop_pair ((cards.filter (fun c => c.column == "Canceled".toList)).filterMap
      Card.price)).1
  · exact (pop_pair ((cards.filter (fun c => c.column == "Canceled".toList)).filterMap
      Card.price)).2

/-- C6 witness: one active priced card makes the mean equal the rounded
ratio, and the empty won population reports zeros. -/
theorem c6_witness :
    (build_report c6Demo).quoted.averageValue =
      rnd2Frac ((build_report c6Demo).quoted.totalValue : Int)
        ((build_report c6Demo).quoted.totalValueCount : Int) ∧
    (build_report c6Demo).quoted.totalWon = 0 ∧
    (build_report c6Demo).quoted.averageWon = 0 :=
  ⟨(c6_price_consistency c6Demo).1 (by decide),
   (c6_price_consistency c6Demo).2.2.2.1 (by decide)⟩

theorem length_filterMap_price (l : List Card) :
    (l.filterMap Card.price).length = (l.filter (fun c => c.price.isSome)).length := by
  induction l with
  | nil => rfl
  | cons c t ih =>
    cases h : c.price <;>
      simp [List.filterMap_cons, List.filter_cons, h, ih]

theorem not_completed_of_active (c : Card) (cards : List Card)
    (h : c ∈ activeOf cards) :
    c.column ≠ "Completed".toList ∧ c.column ≠ "Canceled".toList := by
  rcases List.mem_filter.mp h with ⟨_, hb⟩
  constructor
  · intro he
    rw [he] at hb
    exact absurd hb (by decide)
  · intro he
    rw [he] at hb
    exact absurd hb (by decide)

/-- C7: the price-summary counts are taken over the three populations -
active priced cards, priced cards in the Completed column, priced cards in
the Canceled column - and the populations are pairwise disjoint: no card
value belongs to more than one of them. -/
theorem c7_disjoint_populations (cards : List Card) (c : Card) :
    (build_report cards).quoted.totalValueCount = (activePopulation cards).length ∧
    (build_report cards).quoted.totalWonCount = (wonPopulation cards).length ∧
    (build_report cards).quoted.totalLostCount = (lostPopulation cards).length ∧
    ¬(c ∈ activePopulation cards ∧ c ∈ wonPopulation cards) ∧
    ¬(c ∈ activePopulation cards ∧ c ∈ lostPopulation cards) ∧
    ¬(c ∈ wonPopulation cards ∧ c ∈ lostPopulation cards) := by
  refine ⟨length_filterMap_price _, length_filterMap_price _, length_filterMap_price _,
    ?_, ?_, ?_⟩
  · rintro ⟨ha, hw⟩
    have h1 := (not_completed_of_active c cards (List.mem_filter.mp ha).1).1
    have h2 := (List.mem_filter.mp (List.mem_filter.mp hw).1).2
    exact h1 (eq_of_beq h2)
  · rintro ⟨ha, hl⟩
    have h1 := (not_completed_of_active c cards (List.mem_filter.mp ha).1).2
    have h2 := (List.mem_filter.mp (List.mem_filter.mp hl).1).2
    exact h1 (eq_of_beq h2)
  · rintro ⟨hw, hl⟩
    have h1 := eq_of_beq (List.mem_filter.mp (List.mem_filter.mp hw).1).2
    have h2 := eq_of_beq (List.mem_filter.mp (List.mem_filter.mp hl).1).2
    rw [h1] at h2
    exact absurd h2 (by decide)

/-- C7 witness: the demo card sits in the active population and in neither
price-accounting column population. -/
theorem c7_witness :
    (build_report c7Demo).quoted.totalWonCount = (wonPopulation c7Demo).length ∧
    ¬(c7DemoCard ∈ activePopulation c7Demo ∧ c7DemoCard ∈ wonPopulation c7Demo) :=
  ⟨(c7_disjoint_populations c7Demo c7DemoCard).2.1,
   (c7_disjoint_populations c7Demo c7DemoCard).2.2.2.1⟩

/-- C10: when a card carries a price, its value is the digits of the first
PRICE_PAT group with every comma removed - a plain nonnegative integer with
no thousands-grouping validation: Quoted Price 1,2 yields 12. -/
theorem c10_price_semantics :
    (∀ s p g, card_price s = Except.ok (some p) → pricePatSearch s = some g →
      p = digitsToNat (g.filter (fun c => c != ','))) ∧
    card_price "Quoted Price 1,2".toList = Except.ok (some 12) := by
  constructor
  · intro s p g hp hg
    unfold card_price at hp
    rw [hg] at hp
    dsimp only at hp
    split at hp
    · exact Except.noConfusion hp
    · exact (Option.some.inj (Except.ok.inj hp)).symm
  · decide

/-- C10 witness: the group 1,2 strips to the integer 12. -/
theorem c10_witness :
    (12 : Nat) = digitsToNat ("1,2".toList.filter (fun c => c != ',')) :=
  c10_price_semantics.1 "Quoted Price 1,2".toList 12 "1,2".toList (by decide) (by decide)

end CorePoint
